import Mathlib

/-!
Shallow embedding of `src/components/input-component/multi-select-input.tsx`:
the `CustomFormMultiSelect` form field (selection handlers, dependency-driven
option-loading effect, dropdown rendering) and the `ProfileHeader` image-upload
handler.  Definitions mirror the TypeScript source; theorems settle the spec
claims about them.
-/

/-- Embeds the source's `Option` interface: `{ value: string; label: string }`.
(Named `Opt` because `Option` is taken by Lean.) -/
structure Opt where
  value : String
  label : String
deriving DecidableEq, Repr

/-- A JavaScript value as far as the dependency check distinguishes them:
`undefined`, `null`, a string, or anything else (numbers, booleans, objects…). -/
inductive JSValue where
  | undef : JSValue
  | jsNull : JSValue
  | str : String → JSValue
  | other : JSValue
deriving DecidableEq, Repr

/-- JavaScript truthiness of an optional string prop such as `dependsOn`:
`undefined` and the empty string are falsy, any other string is truthy. -/
def truthyStr : Option String → Bool
  | none => false
  | some s => s != ""

/-- Mirrors `const dependencyValue = dependsOn ? useWatch({...}) : undefined;`
the watched value is consulted only when `dependsOn` is truthy. -/
def dependencyValueOf (dependsOn : Option String) (watched : JSValue) : JSValue :=
  if truthyStr dependsOn then watched else JSValue.undef

/-- Mirrors `const hasDependencyValue = Boolean(dependencyValue !== undefined &&
dependencyValue !== null && dependencyValue !== "");` -/
def hasDependencyValue (v : JSValue) : Bool :=
  v != JSValue.undef && v != JSValue.jsNull && v != JSValue.str ""

/-- Local component state touched by the option-loading effect:
`options` and `loading` (`useState`). -/
structure MSState where
  options : List Opt
  loading : Bool
deriving DecidableEq, Repr

/-- Outcome of awaiting the `loadOptions` promise: it resolves with a list of
options or rejects. -/
inductive FetchResult where
  | resolved : List Opt → FetchResult
  | rejected : FetchResult
deriving DecidableEq, Repr

/-- Observable outcome of one run of the option-loading `useEffect`: the
resulting component state plus which side effects occurred. -/
structure EffectOutcome where
  finalOptions : List Opt
  finalLoading : Bool
  calledLoadOptions : Bool
  loggedError : Bool
  showedToast : Bool
  rethrown : Bool
deriving DecidableEq, Repr

/-- The body of `fetchOptions`: when `loadOptions` is provided
(`loadOpts = some r`, with `r` the result of awaiting it) it sets `loading`
to true, awaits `loadOptions`, on resolution replaces `options` with the
fetched list, on rejection logs `console.error` (no toast, no rethrow), and in
`finally` sets `loading` back to false.  When `loadOptions` is absent it does
nothing. -/
def fetchOptions (loadOpts : Option FetchResult) (s : MSState) : EffectOutcome :=
  match loadOpts with
  | none =>
      { finalOptions := s.options, finalLoading := s.loading,
        calledLoadOptions := false, loggedError := false,
        showedToast := false, rethrown := false }
  | some (FetchResult.resolved fetched) =>
      { finalOptions := fetched, finalLoading := false,
        calledLoadOptions := true, loggedError := false,
        showedToast := false, rethrown := false }
  | some FetchResult.rejected =>
      { finalOptions := s.options, finalLoading := false,
        calledLoadOptions := true, loggedError := true,
        showedToast := false, rethrown := false }

/-- One run of the option-loading `useEffect`:
`if (!dependsOn || hasDependencyValue) fetchOptions(); else if (dependsOn)
setOptions([]);` -/
def runEffect (loadOpts : Option FetchResult) (dependsOn : Option String)
    (watched : JSValue) (s : MSState) : EffectOutcome :=
  if !truthyStr dependsOn || hasDependencyValue (dependencyValueOf dependsOn watched) then
    fetchOptions loadOpts s
  else if truthyStr dependsOn then
    { finalOptions := [], finalLoading := s.loading,
      calledLoadOptions := false, loggedError := false,
      showedToast := false, rethrown := false }
  else
    { finalOptions := s.options, finalLoading := s.loading,
      calledLoadOptions := false, loggedError := false,
      showedToast := false, rethrown := false }

/-- The `CommandItem` `onSelect` handler.  `fieldValue` is `field.value`
(`none` when unset).  Mirrors:
`const isSelected = field.value?.includes(option.value)`,
`const newValue = field.value || []`, then
`field.onChange(isSelected ? newValue.filter(v => v !== selectedValue)
: [...newValue, selectedValue])`.  Returns the list passed to
`field.onChange`. -/
def commandItemOnSelect (fieldValue : Option (List String)) (optionValue : String) :
    List String :=
  let isSelected : Bool :=
    match fieldValue with
    | none => false
    | some l => l.contains optionValue
  let newValue := fieldValue.getD []
  if isSelected then newValue.filter (fun v => v != optionValue)
  else newValue ++ [optionValue]

/-- The selection `Badge` `onClick` handler: if `disabled` it returns without
calling `field.onChange` (`none`); otherwise it calls `field.onChange` with
`field.value.filter(v => v !== value)`. -/
def badgeOnClick (disabled : Bool) (fieldValue : List String) (badgeValue : String) :
    Option (List String) :=
  if disabled then none
  else some (fieldValue.filter (fun v => v != badgeValue))

/-- What the dropdown body (`PopoverContent`) renders below the search input:
the loading spinner, the `Aucune option disponible` placeholder, or one
`CommandItem` per option. -/
inductive DropdownContent where
  | spinner : DropdownContent
  | placeholder : String → DropdownContent
  | items : List Opt → DropdownContent
deriving DecidableEq, Repr

/-- The dropdown body: `loading ? <spinner/> : (options.length === 0 &&
!loading ? <div>Aucune option disponible</div> : options.map(... CommandItem))`. -/
def renderDropdown (loading : Bool) (options : List Opt) : DropdownContent :=
  if loading then DropdownContent.spinner
  else if options.length == 0 && !loading then
    DropdownContent.placeholder "Aucune option disponible"
  else DropdownContent.items options

/-- The `CommandItem`s carried by a rendered dropdown body. -/
def renderedItems : DropdownContent → List Opt
  | DropdownContent.items l => l
  | _ => []

/-- Whether the try-block body of `handleProfileImageChange` throws after
the simulated delay (in practice `URL.createObjectURL` or the toast call);
the delay promise itself never rejects. -/
inductive UploadBody where
  | succeeds : UploadBody
  | throwsAfterDelay : UploadBody
deriving DecidableEq, Repr

/-- Observable trace of one call of `ProfileHeader.handleProfileImageChange`:
which state updates, awaits and toasts happened, and the value of the
`isUploading` state once the handler has returned. -/
structure ProfileTrace where
  setUploadingTrue : Bool
  delayAwaitedMs : Option Nat
  successToast : Bool
  errorToast : Bool
  isUploadingFinal : Bool
deriving DecidableEq, Repr

/-- Embeds `ProfileHeader.handleProfileImageChange`.  `isUploading0` is the
current `isUploading` state; `files` is `e.target.files` (`none` when
undefined).  Mirrors
`const file = e.target.files?.[0]; if (!file) return;` then
`try { setIsUploading(true); ...; await delay(1500); ...; toast(success) }
catch { toast(error) } finally { setIsUploading(false) }`. -/
def handleProfileImageChange (isUploading0 : Bool) (files : Option (List String))
    (body : UploadBody) : ProfileTrace :=
  match files.bind List.head? with
  | none =>
      { setUploadingTrue := false, delayAwaitedMs := none,
        successToast := false, errorToast := false,
        isUploadingFinal := isUploading0 }
  | some _ =>
      match body with
      | UploadBody.succeeds =>
          { setUploadingTrue := true, delayAwaitedMs := some 1500,
            successToast := true, errorToast := false,
            isUploadingFinal := false }
      | UploadBody.throwsAfterDelay =>
          { setUploadingTrue := true, delayAwaitedMs := some 1500,
            successToast := false, errorToast := true,
            isUploadingFinal := false }

/-! ### Bridging lemmas -/

/-- `List.contains` agrees with list membership for strings. -/
theorem contains_eq_true_iff (l : List String) (x : String) :
    l.contains x = true ↔ x ∈ l := by
  induction l with
  | nil => simp
  | cons a t ih => simp [List.contains_cons, ih]

/-! ### Claim theorems -/

/-- Claim C1: for every current selection list (defaulting to the empty list
when the field value is unset) and every option value not in it, the
`CommandItem` `onSelect` handler calls `field.onChange` with exactly that list
with the option value appended at the end. -/
theorem select_appends_value (fv : Option (List String)) (x : String)
    (h : (fv.getD []).contains x = false) :
    commandItemOnSelect fv x = fv.getD [] ++ [x] := by
  cases fv with
  | none => rfl
  | some l =>
      have h' : l.contains x = false := by simpa using h
      have hx : x ∉ l := fun hm => by
        rw [(contains_eq_true_iff l x).mpr hm] at h'
        exact Bool.noConfusion h'
      simp [commandItemOnSelect, hx]

/-- Witness for C1 at a concrete input. -/
theorem select_appends_value_witness :
    ((some ["a"] : Option (List String)).getD []).contains "b" = false ∧
    commandItemOnSelect (some ["a"]) "b" = ["a"] ++ ["b"] :=
  ⟨by decide, select_appends_value (some ["a"]) "b" (by decide)⟩

/-- Claim C2: for a value already in the selection, both the option
`onSelect` handler and the (non-disabled) badge `onClick` handler call
`field.onChange` with the selection filtered free of that value — every
occurrence removed, relative order of the rest preserved (the result is a
sublist). -/
theorem deselect_removes_value (v : List String) (x : String) (hx : x ∈ v) :
    commandItemOnSelect (some v) x = v.filter (fun y => y != x) ∧
    badgeOnClick false v x = some (v.filter (fun y => y != x)) ∧
    x ∉ v.filter (fun y => y != x) ∧
    (v.filter (fun y => y != x)).Sublist v := by
  refine ⟨by simp [commandItemOnSelect, hx], rfl, ?_, List.filter_sublist v⟩
  simp [List.mem_filter]

/-- Witness for C2 at a concrete input. -/
theorem deselect_removes_value_witness :
    "a" ∈ ["a", "b"] ∧ commandItemOnSelect (some ["a", "b"]) "a" = ["b"] := by
  have h := deselect_removes_value ["a", "b"] "a" (by decide)
  exact ⟨by decide, h.1.trans (by decide)⟩

/-- Claim C3: when `dependsOn` is provided (truthy) and the watched dependency
value is `undefined`, `null` or the empty string, the effect resets the
options state to the empty list and does not call `loadOptions`; conversely,
when `loadOptions` is provided and either no `dependsOn` is given or the
dependency value is none of those three, the effect calls `loadOptions`. -/
theorem dependency_reset_and_fetch :
    (∀ (lo : Option FetchResult) (d : String) (w : JSValue) (s : MSState),
        d ≠ "" →
        (w = JSValue.undef ∨ w = JSValue.jsNull ∨ w = JSValue.str "") →
        (runEffect lo (some d) w s).finalOptions = [] ∧
          (runEffect lo (some d) w s).calledLoadOptions = false) ∧
    (∀ (r : FetchResult) (dep : Option String) (w : JSValue) (s : MSState),
        truthyStr dep = false ∨
          hasDependencyValue (dependencyValueOf dep w) = true →
        (runEffect (some r) dep w s).calledLoadOptions = true) := by
  constructor
  · intro lo d w s hd hw
    have ht : truthyStr (some d) = true := by simp [truthyStr, hd]
    have hdep : hasDependencyValue (dependencyValueOf (some d) w) = false := by
      rcases hw with h | h | h <;> subst h <;>
        simp [dependencyValueOf, hasDependencyValue, ht]
    simp [runEffect, ht, hdep]
  · intro r dep w s h
    have hcond : (!truthyStr dep ||
        hasDependencyValue (dependencyValueOf dep w)) = true := by
      rcases h with h | h <;> simp [h]
    rw [runEffect, if_pos hcond]
    cases r <;> rfl

/-- Witness for C3 at concrete inputs for both directions. -/
theorem dependency_reset_and_fetch_witness :
    (("department" : String) ≠ "" ∧
      (runEffect (some FetchResult.rejected) (some "department") JSValue.jsNull
          { options := [⟨"x", "X"⟩], loading := false }).finalOptions = []) ∧
    (truthyStr none = false ∧
      (runEffect (some FetchResult.rejected) none JSValue.undef
          { options := [], loading := false }).calledLoadOptions = true) :=
  ⟨⟨by decide,
     (dependency_reset_and_fetch.1 (some FetchResult.rejected) "department"
        JSValue.jsNull { options := [⟨"x", "X"⟩], loading := false }
        (by decide) (Or.inr (Or.inl rfl))).1⟩,
   ⟨rfl,
     dependency_reset_and_fetch.2 FetchResult.rejected none JSValue.undef
        { options := [], loading := false } (Or.inl rfl)⟩⟩

/-- Claim C4: starting from a duplicate-free selection, the list handed to
`field.onChange` by the option `onSelect` handler (selected or not, field value
set or unset) and by the badge `onClick` handler is again duplicate-free. -/
theorem selection_stays_nodup (fv : Option (List String)) (x : String)
    (h : (fv.getD []).Nodup) :
    (commandItemOnSelect fv x).Nodup ∧
    (∀ l, badgeOnClick false (fv.getD []) x = some l → l.Nodup) := by
  constructor
  · cases fv with
    | none => simp [commandItemOnSelect]
    | some v =>
        have hv : v.Nodup := by simpa using h
        by_cases hx : x ∈ v
        · simpa [commandItemOnSelect, hx] using hv.filter _
        · simp only [commandItemOnSelect, Option.getD_some]
          have hc : v.contains x = false := by
            cases hcc : v.contains x with
            | false => rfl
            | true => exact absurd ((contains_eq_true_iff v x).mp hcc) hx
          rw [hc]
          simp [List.nodup_append, hv, hx]
  · intro l hl
    injection hl with hl
    exact hl ▸ h.filter _

/-- Witness for C4 at a concrete input. -/
theorem selection_stays_nodup_witness :
    ((some ["a", "b"] : Option (List String)).getD []).Nodup ∧
    (commandItemOnSelect (some ["a", "b"]) "c").Nodup :=
  ⟨by decide, (selection_stays_nodup (some ["a", "b"]) "c" (by decide)).1⟩

/-- Counterexample for C5 as stated: on a rejection of `loadOptions`, the
option-loading effect does NOT show a toast notification — the catch block only
logs to the console. -/
theorem rejection_no_toast_cex :
    ¬ ((runEffect (some FetchResult.rejected) none JSValue.undef
        { options := [], loading := true }).showedToast = true) := by
  decide

/-- Claim C5 (amended): on every rejection of `loadOptions` reached by the
effect, the handling is logging the failure to the console and nothing more —
no toast is shown, the error is not rethrown, the previous options are not
replaced, and `loading` is reset to false. -/
theorem rejection_logs_only (dep : Option String) (w : JSValue) (s : MSState)
    (h : truthyStr dep = false ∨
      hasDependencyValue (dependencyValueOf dep w) = true) :
    (runEffect (some FetchResult.rejected) dep w s).loggedError = true ∧
    (runEffect (some FetchResult.rejected) dep w s).showedToast = false ∧
    (runEffect (some FetchResult.rejected) dep w s).rethrown = false ∧
    (runEffect (some FetchResult.rejected) dep w s).finalOptions = s.options ∧
    (runEffect (some FetchResult.rejected) dep w s).finalLoading = false := by
  have heq : runEffect (some FetchResult.rejected) dep w s =
      fetchOptions (some FetchResult.rejected) s := by
    have hcond : (!truthyStr dep ||
        hasDependencyValue (dependencyValueOf dep w)) = true := by
      rcases h with h | h <;> simp [h]
    rw [runEffect, if_pos hcond]
  rw [heq]
  exact ⟨rfl, rfl, rfl, rfl, rfl⟩

/-- Witness for C5 (amended) at a concrete input. -/
theorem rejection_logs_only_witness :
    (truthyStr none = false ∨
      hasDependencyValue (dependencyValueOf none JSValue.undef) = true) ∧
    (runEffect (some FetchResult.rejected) none JSValue.undef
        { options := [⟨"a", "A"⟩], loading := true }).loggedError = true :=
  ⟨Or.inl rfl,
   (rejection_logs_only none JSValue.undef
      { options := [⟨"a", "A"⟩], loading := true } (Or.inl rfl)).1⟩

/-- Claim C6: toggling round-trips — selecting a value not in the selection
and then deselecting it returns exactly the original selection list. -/
theorem select_deselect_roundtrip (v : List String) (x : String) (hx : x ∉ v) :
    commandItemOnSelect (some (commandItemOnSelect (some v) x)) x = v := by
  have h1 : commandItemOnSelect (some v) x = v ++ [x] := by
    simp [commandItemOnSelect, hx]
  rw [h1]
  have hx2 : x ∈ v ++ [x] := by simp
  have h2 : (v ++ [x]).filter (fun y => y != x) = v := by
    rw [List.filter_append]
    have hv : v.filter (fun y => y != x) = v :=
      List.filter_eq_self.mpr fun a ha => by
        have hne : a ≠ x := fun he => hx (he ▸ ha)
        simp [hne]
    simp [hv]
  simp [commandItemOnSelect, hx2, h2]

/-- Witness for C6 at a concrete input. -/
theorem select_deselect_roundtrip_witness :
    "c" ∉ (["a", "b"] : List String) ∧
    commandItemOnSelect (some (commandItemOnSelect (some ["a", "b"]) "c")) "c" =
      ["a", "b"] :=
  ⟨by decide, select_deselect_roundtrip ["a", "b"] "c" (by decide)⟩

/-- Claim C7: with an empty options state and loading false, the dropdown body
renders the `Aucune option disponible` placeholder and zero `CommandItem`s. -/
theorem empty_options_placeholder :
    renderDropdown false [] =
      DropdownContent.placeholder "Aucune option disponible" ∧
    renderedItems (renderDropdown false []) = [] := by
  exact ⟨rfl, rfl⟩

/-- Claim C8: on a change event that carries a file, the handler sets
`isUploading` to true, awaits the fixed 1500 ms simulated delay, and — whether
the body completes or throws — `isUploading` is false once the handler has
returned. -/
theorem upload_always_resets (u0 : Bool) (files : Option (List String))
    (f : String) (body : UploadBody)
    (h : files.bind List.head? = some f) :
    (handleProfileImageChange u0 files body).setUploadingTrue = true ∧
    (handleProfileImageChange u0 files body).delayAwaitedMs = some 1500 ∧
    (handleProfileImageChange u0 files body).isUploadingFinal = false := by
  unfold handleProfileImageChange
  rw [h]
  cases body <;> exact ⟨rfl, rfl, rfl⟩

/-- Witness for C8 at a concrete input. -/
theorem upload_always_resets_witness :
    ((some ["avatar.png"] : Option (List String)).bind List.head? =
      some "avatar.png") ∧
    (handleProfileImageChange true (some ["avatar.png"])
        UploadBody.throwsAfterDelay).isUploadingFinal = false :=
  ⟨rfl, (upload_always_resets true (some ["avatar.png"]) "avatar.png"
      UploadBody.throwsAfterDelay rfl).2.2⟩

/-- Claim C9: when the change event carries no file, the handler returns with
no effect — `isUploading` is never set (and keeps its prior value), no delay is
awaited, and no toast of either kind is shown. -/
theorem no_file_no_effect (u0 : Bool) (files : Option (List String))
    (body : UploadBody) (h : files.bind List.head? = none) :
    handleProfileImageChange u0 files body =
      { setUploadingTrue := false, delayAwaitedMs := none,
        successToast := false, errorToast := false, isUploadingFinal := u0 } := by
  unfold handleProfileImageChange
  rw [h]

/-- Witness for C9 at a concrete input. -/
theorem no_file_no_effect_witness :
    ((none : Option (List String)).bind List.head? = none) ∧
    handleProfileImageChange true none UploadBody.succeeds =
      { setUploadingTrue := false, delayAwaitedMs := none,
        successToast := false, errorToast := false, isUploadingFinal := true } :=
  ⟨rfl, no_file_no_effect true none UploadBody.succeeds rfl⟩

/-- Claim C10: a rejected `loadOptions` leaves the options state unchanged and
resets `loading` to false; the options are replaced with the fetched list only
on resolution. -/
theorem rejected_fetch_keeps_options (s : MSState) (fetched : List Opt) :
    (fetchOptions (some FetchResult.rejected) s).finalOptions = s.options ∧
    (fetchOptions (some FetchResult.rejected) s).finalLoading = false ∧
    (fetchOptions (some (FetchResult.resolved fetched)) s).finalOptions =
      fetched :=
  ⟨rfl, rfl, rfl⟩
